import Mathlib

/-
Verification of the request-orchestration and retrieval-control layer of the
pqai search server (core/api.py), via a shallow embedding in Lean 4.

Modelling conventions:
  * a Python request-parameter value is a `Val` (string, integer, or None);
  * a Python dict of request parameters is an association list `ReqMap`
    with first-match lookup and overwrite-in-place insertion;
  * Python exceptions are the inductive `Exc`; fallible Python code is
    embedded as `Except Exc`-valued functions;
  * external collaborators (the embedding function, the vector index,
    the index selector, the patent store) are parameters of the embedded
    functions, so theorems quantify over their behaviour;
  * the adaptive retrieval loop of `SearchRequest102._get_results` is
    embedded fuel-indexed; the fuel (1000) strictly dominates the number of
    iterations the Python loop can perform on any input that enters it,
    since the loop variable at least doubles from 1 towards the 500 ceiling.
-/

namespace PQAI

/-- A request parameter value: a Python string, int, or None. -/
inductive Val where
  | str (s : String)
  | int (i : Int)
  | none
deriving DecidableEq, Repr

/-- A request parameter map, modelling a Python dict with string keys. -/
abbrev ReqMap := List (String × Val)

/-- First-match lookup, modelling dict access semantics. -/
def lookupVal : ReqMap → String → Option Val
  | [], _ => Option.none
  | (k0, v0) :: rest, k => if k0 = k then some v0 else lookupVal rest k

/-- Membership test, modelling the Python expression `k in d`. -/
def containsKey (d : ReqMap) (k : String) : Bool :=
  (lookupVal d k).isSome

/-- Lookup with default, modelling `d.get(k, default)`. -/
def getD (d : ReqMap) (k : String) (v : Val) : Val :=
  (lookupVal d k).getD v

/-- Key assignment, modelling `d[k] = v`: overwrite in place or append. -/
def insertKV : ReqMap → String → Val → ReqMap
  | [], k, v => [(k, v)]
  | (k0, v0) :: rest, k, v =>
    if k0 = k then (k, v) :: rest else (k0, v0) :: insertKV rest k v

/-- Key removal, modelling `d.pop(k)`. -/
def removeKey : ReqMap → String → ReqMap
  | [], _ => []
  | (k0, v0) :: rest, k =>
    if k0 = k then removeKey rest k else (k0, v0) :: removeKey rest k

/-- The exceptions that can arise in the embedded code.  The first three are
the exception classes declared in core/api.py; the rest are the builtin
Python exceptions that the embedded dynamic operations can raise. -/
inductive Exc where
  | badRequest (msg : String)
  | serverError (msg : String)
  | notAllowed (msg : String)
  | valueError (msg : String)
  | typeError (msg : String)
  | keyError (key : String)
  | attributeError (attr : String)
deriving DecidableEq, Repr

/-- True for the exception class BadRequestError of core/api.py. -/
def isBadRequest : Exc → Bool
  | Exc.badRequest _ => true
  | _ => false

/-- True for the exception class ServerError of core/api.py. -/
def isServerError : Exc → Bool
  | Exc.serverError _ => true
  | _ => false

/-- True for the exception class NotAllowedError of core/api.py. -/
def isNotAllowed : Exc → Bool
  | Exc.notAllowed _ => true
  | _ => false

/-- Python whitespace as recognized by str.strip with no argument. -/
def isPySpace (c : Char) : Bool :=
  c = ' ' || c = '\t' || c = '\n' || c = '\r' || c = '\x0b' || c = '\x0c'

/-- Python str.strip with no argument: drop whitespace from both ends. -/
def pyStrip (s : String) : String :=
  String.mk (((s.data.dropWhile isPySpace).reverse.dropWhile isPySpace).reverse)

/-- ASCII decimal digit test. -/
def isDigitChar (c : Char) : Bool :=
  '0' ≤ c && c ≤ '9'

/-- Accumulate the numeric value of a digit list. -/
def digitsVal : List Char → Nat → Nat
  | [], acc => acc
  | c :: cs, acc => digitsVal cs (acc * 10 + (c.toNat - ('0').toNat))

/-- Parse a string the way the Python builtin int parses one: surrounding
whitespace allowed, then an optional sign and a nonempty digit run. -/
def parsePyIntStr (s : String) : Option Int :=
  let cs := (((s.data.dropWhile isPySpace).reverse.dropWhile isPySpace).reverse)
  match cs with
  | [] => Option.none
  | c :: rest =>
    if c = '-' then
      if rest ≠ [] && rest.all isDigitChar then some (-(digitsVal rest 0 : Int))
      else Option.none
    else if c = '+' then
      if rest ≠ [] && rest.all isDigitChar then some ((digitsVal rest 0 : Int))
      else Option.none
    else
      if (c :: rest).all isDigitChar then some ((digitsVal (c :: rest) 0 : Int))
      else Option.none

/-- The Python builtin int applied to a request value: ints pass through,
strings are parsed or raise ValueError, None raises TypeError. -/
def pyInt : Val → Except Exc Int
  | Val.int i => Except.ok i
  | Val.str s =>
    match parsePyIntStr s with
    | some i => Except.ok i
    | Option.none =>
      Except.error (Exc.valueError ("invalid literal for int with base 10: " ++ s))
  | Val.none => Except.error (Exc.typeError "int argument must not be NoneType")

/-- String coercion as performed by Python string concatenation: a str
operand passes through, any other operand raises TypeError. -/
def valAsStr : Val → Except Exc String
  | Val.str s => Except.ok s
  | Val.int _ => Except.error (Exc.typeError "can only concatenate str to str, not int")
  | Val.none => Except.error (Exc.typeError "can only concatenate str to str, not NoneType")

/-- The string content of a value, with non-strings mapped to the empty
string; used only to state theorems about requests whose construction
succeeded, where the value is known to be a string. -/
def strOf : Val → String
  | Val.str s => s
  | _ => ""

/-- Python truthiness of a request value. -/
def truthy : Val → Bool
  | Val.str s => s.data ≠ []
  | Val.int i => i ≠ 0
  | Val.none => false

/-- Python str.lower on a request value: AttributeError on non-strings. -/
def pyLowerVal : Val → Except Exc String
  | Val.str s => Except.ok (String.mk (s.data.map Char.toLower))
  | _ => Except.error (Exc.attributeError "lower")

/-- Python f-string interpolation of a request value. -/
def formatVal : Val → String
  | Val.str s => s
  | Val.int i => toString i
  | Val.none => "None"

/-- Subscript access, modelling `d[k]`: KeyError when the key is absent. -/
def pyGetItem (d : ReqMap) (k : String) : Except Exc Val :=
  match lookupVal d k with
  | some v => Except.ok v
  | Option.none => Except.error (Exc.keyError k)

/-- A retrieved search result, reduced to the fields the filters consult:
the publication date (an ISO-format date string, compared lexicographically)
and the document type. -/
structure SearchResultRec where
  pubDate : String
  docKind : String
deriving DecidableEq, Repr

/-- A filter as constructed by FilterExtractor in core/api.py: either a
PublicationDateFilter with optional after/before bounds (the raw request
values), or a DocTypeFilter with the requested type value. -/
inductive ResFilter where
  | publicationDate (after : Option Val) (before : Option Val)
  | docType (t : Val)
deriving DecidableEq, Repr

/-- Lexicographic order on character lists, used to compare ISO date
strings. -/
def charListLe : List Char → List Char → Bool
  | [], _ => true
  | _ :: _, [] => false
  | a :: as, b :: bs => if a = b then charListLe as bs else decide (a < b)

/-- Lexicographic date-string comparison: a is on or before b. -/
def dateLe (a b : String) : Bool :=
  charListLe a.data b.data

/-- Strict lexicographic date-string comparison: a is strictly before b. -/
def dateLt (a b : String) : Bool :=
  dateLe a b && a ≠ b

/-- Modelled from the spec: the classes PublicationDateFilter and
DocTypeFilter live in core/filters.py, which is not under src/.  Spec 4.5
describes them: "date-range (inclusive after/before bound; either bound may
be absent meaning unbounded) and document-type (exact match against a
provided type string)".  A result passes the date filter iff its
publication date lies between the bounds inclusively, an absent bound being
unbounded; a non-string bound matches nothing. -/
def ResFilter.passes : ResFilter → SearchResultRec → Bool
  | ResFilter.publicationDate a b, r =>
    (match a with
     | Option.none => true
     | some (Val.str s) => dateLe s r.pubDate
     | some _ => false) &&
    (match b with
     | Option.none => true
     | some (Val.str s) => dateLe r.pubDate s
     | some _ => false)
  | ResFilter.docType t, r => t = Val.str r.docKind

/-- Modelled from the spec: FilterArray.apply lives in core/filters.py,
which is not under src/.  Spec 4.5 describes it: "an ordered sequence of
independent predicates; application is a left-fold intersection".  Each
filter keeps exactly the results it passes. -/
def applyFilters (fs : List ResFilter) (rs : List SearchResultRec) : List SearchResultRec :=
  fs.foldl (fun acc f => acc.filter (fun r => ResFilter.passes f r)) rs

/-- FilterExtractor._get_date_filter: build a PublicationDateFilter when
either the after or the before parameter is truthy, normalizing falsy
bounds to None. -/
def getDateFilter (d : ReqMap) : Option ResFilter :=
  let after := getD d "after" Val.none
  let before := getD d "before" Val.none
  if truthy after || truthy before then
    some (ResFilter.publicationDate
      (if truthy after then some after else Option.none)
      (if truthy before then some before else Option.none))
  else Option.none

/-- FilterExtractor._get_doctype_filter: build a DocTypeFilter when the
type parameter is truthy. -/
def getDoctypeFilter (d : ReqMap) : Option ResFilter :=
  let doctype := getD d "type" Val.none
  if truthy doctype then some (ResFilter.docType doctype) else Option.none

/-- FilterExtractor.extract: the date filter, if any, followed by the
doctype filter, if any. -/
def extractFilters (d : ReqMap) : List ResFilter :=
  (getDateFilter d).toList ++ (getDoctypeFilter d).toList

/-- The configuration flags and external collaborators consumed by the
request classes of core/api.py: the index-selection kill switch, the index
directory (get and available), the index selector, and the incoming
federation gate.  All are read-only process-wide values in the source. -/
structure Env where
  index_selection_disabled : Bool
  availableGet : Val → List String
  availableAll : List String
  selectIndexes : String → Nat → List String
  allow_incoming_extension_requests : Bool

/-- SearchRequest._index_specified_in_request: idx must be present and
different from the sentinel string auto. -/
def indexSpecifiedInRequest (d : ReqMap) : Bool :=
  if !(containsKey d "idx") then false
  else if getD d "idx" Val.none = Val.str "auto" then false
  else true

/-- SearchRequest._get_indexes: explicit index, else every available index
when selection is disabled, else the top-3 selection collaborator applied
to the full query. -/
def getIndexes (env : Env) (d : ReqMap) (fullQuery : String) : List String :=
  if indexSpecifiedInRequest d then env.availableGet (getD d "idx" Val.none)
  else if env.index_selection_disabled then env.availableAll
  else env.selectIndexes fullQuery 3

/-- SearchRequest._read_bool_value: true for the string tokens true, 1 and
yes and for nonzero integers; false otherwise. -/
def readBoolValue (d : ReqMap) (key : String) : Bool :=
  match (lookupVal d key).getD Val.none with
  | Val.str s => s = "true" || s = "1" || s = "yes"
  | Val.int i => i ≠ 0
  | Val.none => false

/-- The state of a constructed SearchRequest, mirroring the attributes set
by SearchRequest.__init__ in core/api.py. -/
structure SearchRequest where
  data : ReqMap
  query : Val
  latent_query : Val
  n_results : Int
  full_query : String
  indexes : List String
  need_snippets : Bool
  need_mappings : Bool
  filters : List ResFilter
deriving DecidableEq, Repr

/-- SearchRequest.__init__ (with the inherited APIRequest.__init__):
validation first (a membership test that raises TypeError on a None
payload, then the presence check on q raising BadRequestError), then the
attribute assignments in source order: query, latent query, the int-parsed
result count, the stripped full query, the index scope, the boolean flags,
and the extracted filters.  Construction is not guarded by any handler, so
any exception escapes to the caller as raised. -/
def mkSearchRequest (env : Env) (rd : Option ReqMap) : Except Exc SearchRequest :=
  match rd with
  | Option.none =>
    Except.error (Exc.typeError "argument of type NoneType is not iterable")
  | some d =>
    if containsKey d "q" = false then
      Except.error (Exc.badRequest "Request does not contain a query.")
    else
      match pyInt (getD d "n" (Val.int 10)) with
      | Except.error e => Except.error e
      | Except.ok n =>
        match valAsStr (getD d "q" (Val.str "")), valAsStr (getD d "lq" (Val.str "")) with
        | Except.ok qs, Except.ok lqs =>
          Except.ok
            { data := d
              query := getD d "q" (Val.str "")
              latent_query := getD d "lq" (Val.str "")
              n_results := n
              full_query := pyStrip (qs ++ "\n" ++ lqs)
              indexes := getIndexes env d (pyStrip (qs ++ "\n" ++ lqs))
              need_snippets := readBoolValue d "snip"
              need_mappings := readBoolValue d "maps"
              filters := extractFilters d }
        | Except.error e, _ => Except.error e
        | _, Except.error e => Except.error e

/-- APIRequest.serve: run the serving function, then the formatting
function, and collapse ANY escaping exception into a fresh ServerError with
the fixed default message.  The bare except clause in core/api.py line 41
makes no distinction between exception classes. -/
def serveRequest (serving : Except Exc α) (fmt : α → Except Exc β) : Except Exc β :=
  match (match serving with
         | Except.ok a => fmt a
         | Except.error e => Except.error e) with
  | Except.ok b => Except.ok b
  | Except.error _ => Except.error (Exc.serverError "Server error while handling request.")

/-- SearchRequest.MAX_RES_LIMIT, assigned in SearchRequest.__init__. -/
def MAX_RES_LIMIT : Int := 500

/-- The while loop of SearchRequest102._get_results, fuel-indexed.  Each
fueled step mirrors one guard evaluation: while the filtered results are
fewer than n and the breadth m is below MAX_RES_LIMIT, run one vector
search of breadth m, apply the filters, double m and continue.  The second
component counts the vector-search invocations performed. -/
def searchLoop (search : Int → List SearchResultRec)
    (flt : List SearchResultRec → List SearchResultRec) (n : Int) :
    Nat → Int → List SearchResultRec → List SearchResultRec × Nat
  | 0, _, results => (results, 0)
  | fuel + 1, m, results =>
    if (results.length : Int) < n ∧ m < MAX_RES_LIMIT then
      let stepped := searchLoop search flt n fuel (m * 2) (flt (search m))
      (stepped.1, stepped.2 + 1)
    else (results, 0)

/-- Fuel for the retrieval loop: strictly more than the iterations any
run of the Python loop can perform, since the breadth at least doubles
from at least 1 towards the 500 ceiling whenever the loop is entered. -/
def searchFuel : Nat := 1000

/-- SearchRequest102._get_results: the vectorized query and index scope are
folded into the search collaborator; the loop starts at breadth m = n with
an empty result list.  Returns the final result list and the number of
vector-search rounds performed. -/
def getResults (search : Int → List SearchResultRec)
    (flt : List SearchResultRec → List SearchResultRec) (n : Int) :
    List SearchResultRec × Nat :=
  searchLoop search flt n searchFuel n []

/-- SearchRequest102._get_results reads the result count from the request
attribute n_results set at construction, unchanged. -/
def getResultsOf (search : Int → List SearchResultRec)
    (flt : List SearchResultRec → List SearchResultRec) (r : SearchRequest) :
    List SearchResultRec × Nat :=
  getResults search flt r.n_results

/-- SearchRequest103._get_interim_request_params: copy the outer parameter
map, then force n to 100 and maps and snip to 0. -/
def getInterimRequestParams (d : ReqMap) : ReqMap :=
  insertKV (insertKV (insertKV d "n" (Val.int 100)) "maps" (Val.int 0)) "snip" (Val.int 0)

/-- SimilarPatentsRequest._create_text_query_request: derive the query text
from the first claim of the patent (collaborators firstClaim and
removeClaim stand for Patent(...).first_claim and
utils.remove_claim_number), substitute it for q in a copy of the parameter
map, and remove the pn key. -/
def createTextQueryRequest (firstClaim : Val → String) (removeClaim : String → String)
    (d : ReqMap) : ReqMap :=
  removeKey (insertKV d "q" (Val.str (removeClaim (firstClaim (getD d "pn" Val.none))))) "pn"

/-- PatentPriorArtRequest._serving_fn: the derived request of the
similar-patents flow with the before parameter overwritten by the filing
date of the source patent (collaborator filingDate stands for
Patent(...).filing_date, an ISO date string). -/
def priorArtDerivedRequest (firstClaim : Val → String) (removeClaim : String → String)
    (filingDate : Val → String) (d : ReqMap) : ReqMap :=
  insertKV (createTextQueryRequest firstClaim removeClaim d) "before"
    (Val.str (filingDate (getD d "pn" Val.none)))

/-- IncomingExtensionRequest.__init__: when incoming extension requests are
disallowed, raise NotAllowedError before the superclass constructor (and
hence before validation or any attribute work) runs; otherwise construct
the SearchRequest102 state. -/
def mkIncomingExtensionRequest (env : Env) (rd : Option ReqMap) : Except Exc SearchRequest :=
  if !env.allow_incoming_extension_requests then
    Except.error (Exc.notAllowed "Server does not accept extension requests.")
  else mkSearchRequest env rd

/-- DatasetSampleRequest._validation_fn: the dataset and n keys must be
present. -/
def datasetValidationFn (d : ReqMap) : Except Exc Unit :=
  if containsKey d "dataset" = false then
    Except.error (Exc.badRequest "Request does not specify a dataset name.")
  else if containsKey d "n" = false then
    Except.error (Exc.badRequest "Request does not specify the sample number.")
  else Except.ok ()

/-- DatasetSampleRequest._serving_fn: look up the dataset name, lower-case
it, and either index into the PoC dataset (collaborator poc) or raise
BadRequestError naming the unknown dataset.  This raise happens INSIDE the
serve phase, after validation has already passed. -/
def datasetServingFn (poc : Int → Except Exc α) (d : ReqMap) : Except Exc α :=
  match pyGetItem d "dataset" with
  | Except.error e => Except.error e
  | Except.ok name =>
    match pyLowerVal name with
    | Except.error e => Except.error e
    | Except.ok lname =>
      if lname = "poc" then
        match pyGetItem d "n" with
        | Except.error e => Except.error e
        | Except.ok nv =>
          match pyInt nv with
          | Except.error e => Except.error e
          | Except.ok n => poc n
      else Except.error (Exc.badRequest ("No dataset named " ++ formatVal name ++ "."))

/-- A concrete collaborator environment used by concrete witnesses and
counterexamples: index selection disabled, one available index named a,
incoming federation allowed. -/
def envW : Env := ⟨true, fun _ => [], ["a"], fun _ _ => [], true⟩

/-- A concrete collaborator environment with incoming federation
disallowed. -/
def envNoIngress : Env := ⟨true, fun _ => [], ["a"], fun _ _ => [], false⟩

/-- The request state that construction yields on the parameter map
with q = x and n = 1000 under envW. -/
def reqC4 : SearchRequest :=
  ⟨[("q", Val.str "x"), ("n", Val.str "1000")], Val.str "x", Val.str "",
   1000, "x", ["a"], false, false, []⟩

/-- The request state that construction yields on the parameter map
with q = hi under envW. -/
def reqC5 : SearchRequest :=
  ⟨[("q", Val.str "hi")], Val.str "hi", Val.str "", 10, "hi", ["a"], false, false, []⟩

/-- An outer combination-search parameter map exercising all the
parameters the inner pool request must override. -/
def outerC6 : ReqMap :=
  [("q", Val.str "hello"), ("n", Val.str "7"), ("snip", Val.str "true"), ("maps", Val.int 1)]

/-- The request state that construction yields on the interim parameter
map derived from outerC6 under envW. -/
def reqC6 : SearchRequest :=
  ⟨[("q", Val.str "hello"), ("n", Val.int 100), ("snip", Val.int 0), ("maps", Val.int 0)],
   Val.str "hello", Val.str "", 100, "hello", ["a"], false, false, []⟩

/-- A concrete prior-art derived request: source patent US1234567B2 with
filing date 2010-01-01, caller-supplied before bound 2022-01-01. -/
def prC7 : ReqMap :=
  priorArtDerivedRequest (fun _ => "1. A method") (fun s => s) (fun _ => "2010-01-01")
    [("pn", Val.str "US1234567B2"), ("before", Val.str "2022-01-01")]

/-- A concrete candidate result published after the C7 filing date. -/
def lateResult : SearchResultRec := ⟨"2015-05-05", "patent"⟩

theorem lookupVal_insertKV_self (d : ReqMap) (k : String) (v : Val) :
    lookupVal (insertKV d k v) k = some v := by
  induction d with
  | nil => simp [insertKV, lookupVal]
  | cons kv rest ih =>
    by_cases hk : kv.1 = k
    · simp [insertKV, hk, lookupVal]
    · simp [insertKV, hk, lookupVal, ih]

theorem lookupVal_insertKV_ne (d : ReqMap) (k k2 : String) (v : Val) (h : k ≠ k2) :
    lookupVal (insertKV d k v) k2 = lookupVal d k2 := by
  induction d with
  | nil => simp [insertKV, lookupVal, h]
  | cons kv rest ih =>
    by_cases hk : kv.1 = k
    · simp [insertKV, hk, lookupVal, h]
    · simp [insertKV, hk, lookupVal, ih]

theorem lookupVal_removeKey_ne (d : ReqMap) (k k2 : String) (h : k ≠ k2) :
    lookupVal (removeKey d k) k2 = lookupVal d k2 := by
  induction d with
  | nil => simp [removeKey, lookupVal]
  | cons kv rest ih =>
    by_cases hk : kv.1 = k
    · have hne : ¬ kv.1 = k2 := by rw [hk]; exact h
      simp [removeKey, hk, lookupVal, hne, ih, h]
    · by_cases h2 : kv.1 = k2
      · simp [removeKey, hk, lookupVal, h2, h.symm]
      · simp [removeKey, hk, lookupVal, h2, ih]

theorem getD_insertKV_self (d : ReqMap) (k : String) (v w : Val) :
    getD (insertKV d k v) k w = v := by
  simp [getD, lookupVal_insertKV_self]

theorem getD_insertKV_ne (d : ReqMap) (k k2 : String) (v w : Val) (h : k ≠ k2) :
    getD (insertKV d k v) k2 w = getD d k2 w := by
  simp [getD, lookupVal_insertKV_ne d k k2 v h]

theorem containsKey_insertKV_self (d : ReqMap) (k : String) (v : Val) :
    containsKey (insertKV d k v) k = true := by
  simp [containsKey, lookupVal_insertKV_self]

theorem containsKey_insertKV_ne (d : ReqMap) (k k2 : String) (v : Val) (h : k ≠ k2) :
    containsKey (insertKV d k v) k2 = containsKey d k2 := by
  simp [containsKey, lookupVal_insertKV_ne d k k2 v h]

theorem mem_applyFilters {r : SearchResultRec} :
    ∀ (fs : List ResFilter) (rs : List SearchResultRec),
      r ∈ applyFilters fs rs → r ∈ rs ∧ ∀ f ∈ fs, ResFilter.passes f r = true := by
  intro fs
  induction fs with
  | nil => intro rs h; exact ⟨h, by simp⟩
  | cons f fs ih =>
    intro rs h
    have h2 := ih (rs.filter (fun x => ResFilter.passes f x)) h
    rcases h2 with ⟨hmem, hall⟩
    rw [List.mem_filter] at hmem
    refine ⟨hmem.1, ?_⟩
    intro g hg
    rcases List.mem_cons.mp hg with hg | hg
    · rw [hg]; exact hmem.2
    · exact hall g hg

theorem valAsStr_ok_strOf (v : Val) (s : String) (h : valAsStr v = Except.ok s) :
    strOf v = s := by
  cases v with
  | str t => simpa [valAsStr, strOf] using h
  | int i => simp [valAsStr] at h
  | none => simp [valAsStr] at h

theorem mk_ok_fields (env : Env) (d : ReqMap) (r : SearchRequest)
    (h : mkSearchRequest env (some d) = Except.ok r) :
    containsKey d "q" = true ∧
    r.data = d ∧
    r.query = getD d "q" (Val.str "") ∧
    r.latent_query = getD d "lq" (Val.str "") ∧
    pyInt (getD d "n" (Val.int 10)) = Except.ok r.n_results ∧
    r.need_snippets = readBoolValue d "snip" ∧
    r.need_mappings = readBoolValue d "maps" ∧
    r.filters = extractFilters d ∧
    (∃ qs lqs, valAsStr (getD d "q" (Val.str "")) = Except.ok qs ∧
       valAsStr (getD d "lq" (Val.str "")) = Except.ok lqs ∧
       r.full_query = pyStrip (qs ++ "\n" ++ lqs) ∧
       r.indexes = getIndexes env d (pyStrip (qs ++ "\n" ++ lqs))) := by
  simp only [mkSearchRequest] at h
  split at h
  · simp at h
  next hq =>
    split at h
    next e he => simp at h
    next n hn =>
      split at h
      next qs lqs hqs hlqs =>
        rw [Except.ok.injEq] at h
        subst h
        refine ⟨by simpa using hq, rfl, rfl, rfl, by rw [hn], rfl, rfl, rfl,
          ⟨qs, lqs, hqs, hlqs, rfl, rfl⟩⟩
      · simp at h
      · simp at h

theorem charListLe_antisymm : ∀ (a b : List Char),
    charListLe a b = true → charListLe b a = true → a = b := by
  intro a
  induction a with
  | nil =>
    intro b h1 h2
    cases b with
    | nil => rfl
    | cons c cs => simp [charListLe] at h2
  | cons c cs ih =>
    intro b h1 h2
    cases b with
    | nil => simp [charListLe] at h1
    | cons e es =>
      by_cases hce : c = e
      · subst hce
        simp only [charListLe, if_pos rfl] at h1 h2
        rw [ih es h1 h2]
      · have h1a : decide (c < e) = true := by simpa [charListLe, hce] using h1
        have h2a : decide (e < c) = true := by simpa [charListLe, Ne.symm hce] using h2
        exact absurd (of_decide_eq_true h2a) (lt_asymm (of_decide_eq_true h1a))

theorem dateLt_not_dateLe (a b : String) (h : dateLt a b = true) : dateLe b a = false := by
  unfold dateLt at h
  rw [Bool.and_eq_true] at h
  rcases h with ⟨hle, hne⟩
  cases hdb : dateLe b a with
  | false => rfl
  | true =>
    unfold dateLe at hle hdb
    have hdata : a.data = b.data := charListLe_antisymm _ _ hle hdb
    exact absurd (String.ext hdata) (of_decide_eq_true hne)

theorem passes_before_bound (a : Option Val) (s : String) (res : SearchResultRec)
    (h : ResFilter.passes (ResFilter.publicationDate a (some (Val.str s))) res = true) :
    dateLe res.pubDate s = true := by
  unfold ResFilter.passes at h
  rw [Bool.and_eq_true] at h
  exact h.2

theorem dateFilter_mem_extract (dd : ReqMap) (s : String)
    (hb : getD dd "before" Val.none = Val.str s)
    (hs : truthy (Val.str s) = true) :
    ∃ a, (ResFilter.publicationDate a (some (Val.str s))) ∈ extractFilters dd := by
  unfold extractFilters getDateFilter
  rw [hb]
  by_cases hA : truthy (getD dd "after" Val.none) = true
  · exact ⟨some (getD dd "after" Val.none), by simp [hA, hs]⟩
  · exact ⟨Option.none, by simp [hA, hs]⟩

theorem searchLoop_succ (search : Int → List SearchResultRec)
    (flt : List SearchResultRec → List SearchResultRec) (n : Int)
    (fuel : Nat) (m : Int) (results : List SearchResultRec) :
    searchLoop search flt n (fuel + 1) m results =
      if (results.length : Int) < n ∧ m < MAX_RES_LIMIT then
        ((searchLoop search flt n fuel (m * 2) (flt (search m))).1,
         (searchLoop search flt n fuel (m * 2) (flt (search m))).2 + 1)
      else (results, 0) := rfl

/-- C1: evaluation of the code at the failing input. A DatasetSampleRequest
with dataset = x and n = 0 passes validation, then its serving function
raises BadRequestError naming the unknown dataset; the bare except clause
of APIRequest.serve nevertheless collapses that validation-class error into
the opaque ServerError, so the error is NOT surfaced verbatim as the spec
requires. -/
theorem C1_badRequest_in_serve_collapsed :
    datasetValidationFn [("dataset", Val.str "x"), ("n", Val.str "0")] = Except.ok () ∧
    datasetServingFn (fun _ => Except.ok ()) [("dataset", Val.str "x"), ("n", Val.str "0")] =
      Except.error (Exc.badRequest "No dataset named x.") ∧
    serveRequest
      (datasetServingFn (fun _ => Except.ok ()) [("dataset", Val.str "x"), ("n", Val.str "0")])
      Except.ok =
      Except.error (Exc.serverError "Server error while handling request.") :=
  ⟨rfl, rfl, rfl⟩

/-- C2 counterexample: at n = 500 the bound 0 < n and n le 500 holds, yet
the retrieval loop performs zero vector-search rounds, because the guard
m < MAX_RES_LIMIT is already false on entry with m = n = 500. -/
theorem C2_counterexample_n500_zero_rounds :
    ((0 : Int) < 500 ∧ (500 : Int) ≤ 500) ∧
    (getResults (fun _ => []) (fun l => l) 500).2 = 0 :=
  ⟨by decide, rfl⟩

/-- C2 amended: for every search collaborator and filter pipeline, and
every requested count n with 0 < n < 500, the retrieval loop of
SearchRequest102 performs at least one vector-search round. -/
theorem C2_at_least_one_round (search : Int → List SearchResultRec)
    (flt : List SearchResultRec → List SearchResultRec) (n : Int)
    (h1 : 0 < n) (h2 : n < 500) :
    1 ≤ (getResults search flt n).2 := by
  unfold getResults searchFuel
  rw [show (1000 : Nat) = 999 + 1 from rfl, searchLoop_succ,
    if_pos ⟨by simpa using h1, by simpa [MAX_RES_LIMIT] using h2⟩]
  exact Nat.succ_le_succ (Nat.zero_le _)

/-- C2 witness: the amended theorem applied at n = 3. -/
theorem C2_at_least_one_round_witness :
    ((0 : Int) < 3 ∧ (3 : Int) < 500) ∧
    1 ≤ (getResults (fun _ => []) (fun l => l) 3).2 :=
  ⟨by decide, C2_at_least_one_round (fun _ => []) (fun l => l) 3 (by decide) (by decide)⟩

/-- C3: for every search collaborator and filter pipeline, when the
requested count n is nonpositive the retrieval loop of SearchRequest102
performs zero vector-search rounds and returns the empty list. -/
theorem C3_nonpositive_n_zero_rounds (search : Int → List SearchResultRec)
    (flt : List SearchResultRec → List SearchResultRec) (n : Int) (h : n ≤ 0) :
    getResults search flt n = ([], 0) := by
  unfold getResults searchFuel
  rw [show (1000 : Nat) = 999 + 1 from rfl, searchLoop_succ, if_neg]
  intro hc
  exact absurd (lt_of_lt_of_le (by simpa using hc.1) h) (lt_irrefl 0)

/-- C3 witness: the theorem applied at n = -1. -/
theorem C3_nonpositive_n_zero_rounds_witness :
    ((-1 : Int) ≤ 0) ∧ getResults (fun _ => []) (fun l => l) (-1) = ([], 0) :=
  ⟨by decide, C3_nonpositive_n_zero_rounds (fun _ => []) (fun l => l) (-1) (by decide)⟩

/-- C4 counterexample: the request with q = x and n = 1000 constructs
successfully; its stored result count is 1000, outside the range 0 le n le
500, and the retrieval step passes exactly that stored count to the loop,
so an out-of-range value does reach the retrieval loop, contrary to the
claim that n is clamped or validated beforehand. -/
theorem C4_counterexample_unclamped_n :
    (mkSearchRequest envW (some [("q", Val.str "x"), ("n", Val.str "1000")])).map
      (fun r => r.n_results) = Except.ok 1000 ∧
    (¬ ((0 : Int) ≤ 1000 ∧ (1000 : Int) ≤ 500)) ∧
    (mkSearchRequest envW (some [("q", Val.str "x"), ("n", Val.str "1000")])).map
      (fun r => getResultsOf (fun _ => []) (fun l => l) r) =
      Except.ok (getResults (fun _ => []) (fun l => l) 1000) :=
  ⟨rfl, by decide, rfl⟩

/-- C4 amended: the result count of a successfully constructed search
request is exactly the int-parsed n parameter, with no clamping or range
validation; the out-of-range value itself reaches the retrieval loop,
whose entry guard then performs zero search rounds whenever the count is
nonpositive or at least 500. -/
theorem C4_n_unclamped_guard_protects (env : Env) (d : ReqMap) (r : SearchRequest)
    (h : mkSearchRequest env (some d) = Except.ok r) :
    pyInt (getD d "n" (Val.int 10)) = Except.ok r.n_results ∧
    ∀ (search : Int → List SearchResultRec)
      (flt : List SearchResultRec → List SearchResultRec),
      (r.n_results ≤ 0 ∨ 500 ≤ r.n_results) → (getResultsOf search flt r).2 = 0 := by
  refine ⟨(mk_ok_fields env d r h).2.2.2.2.1, ?_⟩
  intro search flt hn
  have hneg : ¬ ((([] : List SearchResultRec).length : Int) < r.n_results ∧
      r.n_results < MAX_RES_LIMIT) := by
    rcases hn with hn | hn
    · intro hc
      exact absurd (lt_of_lt_of_le (by simpa using hc.1) hn) (lt_irrefl 0)
    · intro hc
      have hlt : r.n_results < 500 := by simpa [MAX_RES_LIMIT] using hc.2
      exact absurd hlt (not_lt.mpr hn)
  unfold getResultsOf getResults searchFuel
  rw [show (1000 : Nat) = 999 + 1 from rfl, searchLoop_succ, if_neg hneg]

/-- C4 witness: the amended theorem applied to the request constructed
from q = x and n = 1000 under envW. -/
theorem C4_n_unclamped_guard_protects_witness :
    pyInt (getD [("q", Val.str "x"), ("n", Val.str "1000")] "n" (Val.int 10)) =
      Except.ok reqC4.n_results ∧
    (getResultsOf (fun _ => []) (fun l => l) reqC4).2 = 0 := by
  have h := C4_n_unclamped_guard_protects envW
    [("q", Val.str "x"), ("n", Val.str "1000")] reqC4 rfl
  exact ⟨h.1, h.2 (fun _ => []) (fun l => l) (Or.inr (by decide))⟩

/-- C5 counterexample: the parameter map with q equal to the empty string
passes validation (the q key is present), construction succeeds, and the
derived full query is the EMPTY string, contrary to the claim that every
validated search request has a non-empty full query. -/
theorem C5_counterexample_empty_full_query :
    containsKey [("q", Val.str "")] "q" = true ∧
    (mkSearchRequest envW (some [("q", Val.str "")])).map (fun r => r.full_query) =
      Except.ok "" :=
  ⟨rfl, rfl⟩

/-- C5 amended: validation of a search-kind request guarantees only that
the q key is present; for every successfully constructed request the full
query equals the primary query joined to the latent query by a newline and
stripped, a string that can be empty. -/
theorem C5_full_query_formula (env : Env) (d : ReqMap) (r : SearchRequest)
    (h : mkSearchRequest env (some d) = Except.ok r) :
    containsKey d "q" = true ∧
    r.full_query =
      pyStrip (strOf (getD d "q" (Val.str "")) ++ "\n" ++ strOf (getD d "lq" (Val.str ""))) := by
  obtain ⟨hq, _, _, _, _, _, _, _, qs, lqs, hqs, hlqs, hfq, _⟩ := mk_ok_fields env d r h
  refine ⟨hq, ?_⟩
  rw [valAsStr_ok_strOf _ _ hqs, valAsStr_ok_strOf _ _ hlqs]
  exact hfq

/-- C5 witness: the amended theorem applied to the request constructed
from q = hi under envW. -/
theorem C5_full_query_formula_witness :
    containsKey [("q", Val.str "hi")] "q" = true ∧
    reqC5.full_query =
      pyStrip (strOf (getD [("q", Val.str "hi")] "q" (Val.str "")) ++ "\n" ++
        strOf (getD [("q", Val.str "hi")] "lq" (Val.str ""))) :=
  C5_full_query_formula envW [("q", Val.str "hi")] reqC5 rfl

/-- C6: every inner pool request built by SearchRequest103 from an outer
parameter map carries the same primary query as the outer request, has its
result count forced to 100, and has snippets and mappings forced off,
regardless of the outer n, snip and maps parameters. -/
theorem C6_interim_request_forced_params (env : Env) (d : ReqMap) (r : SearchRequest)
    (h : mkSearchRequest env (some (getInterimRequestParams d)) = Except.ok r) :
    r.n_results = 100 ∧ r.need_snippets = false ∧ r.need_mappings = false ∧
    r.query = getD d "q" (Val.str "") := by
  obtain ⟨_, _, hquery, _, hn, hsnip, hmaps, _, _⟩ :=
    mk_ok_fields env (getInterimRequestParams d) r h
  have hn100 : getD (getInterimRequestParams d) "n" (Val.int 10) = Val.int 100 := by
    unfold getInterimRequestParams
    rw [getD_insertKV_ne _ _ _ _ _ (by decide), getD_insertKV_ne _ _ _ _ _ (by decide),
      getD_insertKV_self]
  have hsn : readBoolValue (getInterimRequestParams d) "snip" = false := by
    unfold getInterimRequestParams readBoolValue
    rw [lookupVal_insertKV_self]
    rfl
  have hmp : readBoolValue (getInterimRequestParams d) "maps" = false := by
    unfold getInterimRequestParams readBoolValue
    rw [lookupVal_insertKV_ne _ _ _ _ (by decide), lookupVal_insertKV_self]
    rfl
  have hqd : getD (getInterimRequestParams d) "q" (Val.str "") = getD d "q" (Val.str "") := by
    unfold getInterimRequestParams
    rw [getD_insertKV_ne _ _ _ _ _ (by decide), getD_insertKV_ne _ _ _ _ _ (by decide),
      getD_insertKV_ne _ _ _ _ _ (by decide)]
  rw [hn100] at hn
  refine ⟨?_, by rw [hsnip, hsn], by rw [hmaps, hmp], by rw [hquery, hqd]⟩
  simpa [pyInt] using hn.symm

/-- C6 witness: the theorem applied to the inner request constructed from
the outer map outerC6 under envW. -/
theorem C6_interim_request_forced_params_witness :
    reqC6.n_results = 100 ∧ reqC6.need_snippets = false ∧ reqC6.need_mappings = false ∧
    reqC6.query = getD outerC6 "q" (Val.str "") :=
  C6_interim_request_forced_params envW outerC6 reqC6 rfl

/-- C7: for every prior-art-by-patent request, the derived single-reference
request carries the filing date of the source patent as its before
parameter, overwriting any caller-supplied before; and whenever the filing
date is a truthy string, the extracted filter pipeline excludes every
candidate whose publication date is strictly later than that filing
date. -/
theorem C7_prior_art_before_filing (firstClaim : Val → String)
    (removeClaim : String → String) (filingDate : Val → String) (d : ReqMap)
    (hfd : truthy (Val.str (filingDate (getD d "pn" Val.none))) = true) :
    lookupVal (priorArtDerivedRequest firstClaim removeClaim filingDate d) "before" =
      some (Val.str (filingDate (getD d "pn" Val.none))) ∧
    ∀ (rs : List SearchResultRec) (res : SearchResultRec),
      dateLt (filingDate (getD d "pn" Val.none)) res.pubDate = true →
      res ∉ applyFilters
        (extractFilters (priorArtDerivedRequest firstClaim removeClaim filingDate d)) rs := by
  have h1 : lookupVal (priorArtDerivedRequest firstClaim removeClaim filingDate d) "before" =
      some (Val.str (filingDate (getD d "pn" Val.none))) := by
    unfold priorArtDerivedRequest
    rw [lookupVal_insertKV_self]
  refine ⟨h1, ?_⟩
  intro rs res hlater hmem
  obtain ⟨_, hall⟩ := mem_applyFilters _ _ hmem
  have hb : getD (priorArtDerivedRequest firstClaim removeClaim filingDate d) "before"
      Val.none = Val.str (filingDate (getD d "pn" Val.none)) := by
    simp [getD, h1]
  obtain ⟨a, hamem⟩ := dateFilter_mem_extract _ _ hb hfd
  have hpass := hall _ hamem
  have hle := passes_before_bound a _ res hpass
  rw [dateLt_not_dateLe _ _ hlater] at hle
  exact absurd hle (by simp)

/-- C7 witness: the theorem applied to a concrete prior-art request with
filing date 2010-01-01 and a candidate published 2015-05-05. -/
theorem C7_prior_art_before_filing_witness :
    lookupVal prC7 "before" = some (Val.str "2010-01-01") ∧
    lateResult ∉ applyFilters (extractFilters prC7) [lateResult] := by
  have h := C7_prior_art_before_filing (fun _ => "1. A method") (fun s => s)
    (fun _ => "2010-01-01") [("pn", Val.str "US1234567B2"), ("before", Val.str "2022-01-01")]
    (by decide)
  exact ⟨h.1, h.2 [lateResult] lateResult (by decide)⟩

/-- C8: whenever incoming federation is disabled, constructing an
IncomingExtensionRequest fails with NotAllowedError for every payload,
valid or not, before validation or any other work runs. -/
theorem C8_ingress_disabled_rejects_all (env : Env) (rd : Option ReqMap)
    (h : env.allow_incoming_extension_requests = false) :
    mkIncomingExtensionRequest env rd =
      Except.error (Exc.notAllowed "Server does not accept extension requests.") := by
  simp [mkIncomingExtensionRequest, h]

/-- C8 witness: the theorem applied to the None payload, which would raise
TypeError in validation were the gate not checked first, under a
configuration with incoming federation disabled. -/
theorem C8_ingress_disabled_rejects_all_witness :
    envNoIngress.allow_incoming_extension_requests = false ∧
    mkIncomingExtensionRequest envNoIngress Option.none =
      Except.error (Exc.notAllowed "Server does not accept extension requests.") :=
  ⟨rfl, C8_ingress_disabled_rejects_all envNoIngress Option.none rfl⟩

/-- C9: for every parameter map without an idx key, resolving the index
scope yields exactly the same index set as resolving it on the same map
with idx set to the sentinel string auto: both fall through to the
selection-disabled rule or to the top-3 selection collaborator. -/
theorem C9_idx_auto_same_as_omitted (env : Env) (d : ReqMap) (fq : String)
    (h : containsKey d "idx" = false) :
    getIndexes env d fq = getIndexes env (insertKV d "idx" (Val.str "auto")) fq := by
  have h1 : indexSpecifiedInRequest d = false := by
    simp [indexSpecifiedInRequest, h]
  have h2 : indexSpecifiedInRequest (insertKV d "idx" (Val.str "auto")) = false := by
    simp [indexSpecifiedInRequest, containsKey_insertKV_self, getD_insertKV_self]
  simp [getIndexes, h1, h2]

/-- C9 witness: the theorem applied to the concrete map with only a q key
under envW. -/
theorem C9_idx_auto_same_as_omitted_witness :
    containsKey [("q", Val.str "x")] "idx" = false ∧
    getIndexes envW [("q", Val.str "x")] "x" =
      getIndexes envW (insertKV [("q", Val.str "x")] "idx" (Val.str "auto")) "x" :=
  ⟨rfl, C9_idx_auto_same_as_omitted envW [("q", Val.str "x")] "x" rfl⟩

/-- C10: exceptions raised during request construction propagate unwrapped.
A non-numeric n parameter makes construction fail with the ValueError of
the int builtin, and a None payload makes the validation membership test
fail with TypeError; neither is a BadRequestError, and neither is collapsed
into ServerError, since the catch-all of serve does not cover the
constructor. -/
theorem C10_construction_errors_unwrapped :
    mkSearchRequest envW (some [("q", Val.str "x"), ("n", Val.str "abc")]) =
      Except.error (Exc.valueError "invalid literal for int with base 10: abc") ∧
    isBadRequest (Exc.valueError "invalid literal for int with base 10: abc") = false ∧
    isServerError (Exc.valueError "invalid literal for int with base 10: abc") = false ∧
    mkSearchRequest envW Option.none =
      Except.error (Exc.typeError "argument of type NoneType is not iterable") ∧
    isBadRequest (Exc.typeError "argument of type NoneType is not iterable") = false ∧
    isServerError (Exc.typeError "argument of type NoneType is not iterable") = false :=
  ⟨rfl, rfl, rfl, rfl, rfl, rfl⟩

end PQAI
